import Mathlib

/-!
# VisionLib SDK version header (`vlSDKVersion.h`)

The header is a table of preprocessor constants: three integer literals and
four string literals.  Each `#define` is embedded as a Lean constant of the
same name; integer literals are C `int`s and are embedded as `Int`, string
literals as `String`.

On top of the constants the development states the format contracts of the
version record: how the version string is composed from its components, the
shape of the revision hash, and the layout and calendar validity of the build
timestamp.
-/

/-! ## The constants of the header -/

/-- Major version: `#define VL_SDK_VERSION_MAJOR 3`. -/
def VL_SDK_VERSION_MAJOR : Int := 3

/-- Minor version: `#define VL_SDK_VERSION_MINOR 2`. -/
def VL_SDK_VERSION_MINOR : Int := 2

/-- Revision version: `#define VL_SDK_VERSION_REVISION 2`. -/
def VL_SDK_VERSION_REVISION : Int := 2

/-- Version pre-release postfix: `#define VL_SDK_VERSION_POSTFIX ""`. -/
def VL_SDK_VERSION_POSTFIX : String := ""

/-- Version as string: `#define VL_SDK_VERSION_STRING "3.2.2"`. -/
def VL_SDK_VERSION_STRING : String := "3.2.2"

/-- Version hash as string:
`#define VL_SDK_VERSION_HASH_STRING "9a3b48bea7b98ea5ce9c691022b1dabbed496c77"`. -/
def VL_SDK_VERSION_HASH_STRING : String := "9a3b48bea7b98ea5ce9c691022b1dabbed496c77"

/-- Creation timestamp of this version:
`#define VL_SDK_VERSION_TIMESTAMP_STRING "2024-07-22 09:18:52"`. -/
def VL_SDK_VERSION_TIMESTAMP_STRING : String := "2024-07-22 09:18:52"

/-! ## Accessors -/

/-- Modelled from the spec: the accessor function `vlGetVersionMajor` is only
named in the header's comment, its body is not among the sources.  The spec
says `getVersionMajor()` "returns `major`", without inputs, failure modes or
side effects; `major` is the header's major version. -/
def getVersionMajor : Int := VL_SDK_VERSION_MAJOR

/-- Modelled from the spec: the accessor function `vlGetVersionMinor` is only
named in the header's comment, its body is not among the sources.  The spec
says `getVersionMinor()` "returns `minor`". -/
def getVersionMinor : Int := VL_SDK_VERSION_MINOR

/-- Modelled from the spec: the accessor function `vlGetVersionRevision` is
only named in the header's comment, its body is not among the sources.  The
spec says `getVersionRevision()` "returns `revision`". -/
def getVersionRevision : Int := VL_SDK_VERSION_REVISION

/-- Modelled from the spec: the accessor function `vlGetVersionString` is only
named in the header's comment, its body is not among the sources.  The spec
says `getVersionString()` "returns `versionString`". -/
def getVersionString : String := VL_SDK_VERSION_STRING

/-! ## Composition of the version string -/

/-- Decimal rendering of a natural number, most significant digit first, with
no leading zero (`0` renders as `"0"`).  The first argument bounds the number
of digits produced. -/
def decimalDigits : Nat → Nat → List Char → List Char
  | 0, _, acc => acc
  | fuel + 1, n, acc =>
    let acc1 := Char.ofNat (48 + n % 10) :: acc
    if n / 10 = 0 then acc1 else decimalDigits fuel (n / 10) acc1

/-- Decimal rendering of an integer, as C prints an `int` with `%d`: a minus
sign for a negative number, then the digits of the magnitude. -/
def decimal (n : Int) : String :=
  match n with
  | Int.ofNat m => String.mk (decimalDigits (m + 1) m [])
  | Int.negSucc m => String.mk ('-' :: decimalDigits (m + 2) (m + 1) [])

/-- The spec's composition rule for the version string,
`"{major}.{minor}.{revision}{postfix}"`: the three components in decimal,
separated by dots, followed by the pre-release postfix. -/
def composedVersionString (major minor revision : Int) (pre : String) : String :=
  decimal major ++ "." ++ decimal minor ++ "." ++ decimal revision ++ pre

/-! ## Character classes -/

/-- A decimal digit, `0` to `9`. -/
def isDecimalDigit (c : Char) : Prop := '0' ≤ c ∧ c ≤ '9'

instance (c : Char) : Decidable (isDecimalDigit c) := by
  unfold isDecimalDigit; exact inferInstance

/-- A lowercase hexadecimal digit, `0` to `9` or `a` to `f`. -/
def isLowerHexDigit (c : Char) : Prop := ('0' ≤ c ∧ c ≤ '9') ∨ ('a' ≤ c ∧ c ≤ 'f')

instance (c : Char) : Decidable (isLowerHexDigit c) := by
  unfold isLowerHexDigit; exact inferInstance

/-! ## Reading the build timestamp -/

/-- The numeric fields of a timestamp in the layout `YYYY-MM-DD HH:MM:SS`. -/
structure TimestampFields where
  year : Nat
  month : Nat
  day : Nat
  hour : Nat
  minute : Nat
  second : Nat
  deriving DecidableEq, Repr

/-- Value of one decimal digit; `none` for any other character. -/
def digitValue (c : Char) : Option Nat :=
  if '0' ≤ c ∧ c ≤ '9' then some (c.toNat - 48) else none

/-- Value of a run of decimal digits read as a base-10 number; `none` when a
character of the run is not a decimal digit. -/
def decimalValue : List Char → Nat → Option Nat
  | [], acc => some acc
  | c :: cs, acc =>
    match digitValue c with
    | some d => decimalValue cs (10 * acc + d)
    | none => none

/-- Reads a timestamp laid out as `YYYY-MM-DD HH:MM:SS`: exactly 19
characters, separators at their fixed positions, every field a run of decimal
digits.  Anything else is rejected. -/
def parseTimestamp (s : String) : Option TimestampFields :=
  match s.data with
  | [y1, y2, y3, y4, a, m1, m2, b, d1, d2, sp, h1, h2, c, n1, n2, d, s1, s2] =>
    if a = '-' ∧ b = '-' ∧ sp = ' ' ∧ c = ':' ∧ d = ':' then
      match decimalValue [y1, y2, y3, y4] 0, decimalValue [m1, m2] 0,
            decimalValue [d1, d2] 0, decimalValue [h1, h2] 0,
            decimalValue [n1, n2] 0, decimalValue [s1, s2] 0 with
      | some year, some month, some day, some hour, some minute, some second =>
        some ⟨year, month, day, hour, minute, second⟩
      | _, _, _, _, _, _ => none
    else none
  | _ => none

/-- Gregorian leap-year rule. -/
def isLeapYear (y : Nat) : Bool :=
  (y % 4 == 0 && y % 100 != 0) || y % 400 == 0

/-- Number of days of month `m` (1 to 12) in year `y`; `0` for a month number
outside 1 to 12. -/
def daysInMonth (y m : Nat) : Nat :=
  if m = 2 then (if isLeapYear y then 29 else 28)
  else if m = 4 ∨ m = 6 ∨ m = 9 ∨ m = 11 then 30
  else if 1 ≤ m ∧ m ≤ 12 then 31
  else 0

/-- The fields denote a real calendar date and a real 24-hour time of day. -/
def TimestampFields.isValid (f : TimestampFields) : Prop :=
  1 ≤ f.month ∧ f.month ≤ 12 ∧
  1 ≤ f.day ∧ f.day ≤ daysInMonth f.year f.month ∧
  f.hour < 24 ∧ f.minute < 60 ∧ f.second < 60

instance (f : TimestampFields) : Decidable f.isValid := by
  unfold TimestampFields.isValid; exact inferInstance

/-! ## Facts about the helper definitions -/

/-- The digit characters are the ones the core library prints. -/
theorem digitChar_eq_ofNat (d : Nat) (h : d < 10) : Nat.digitChar d = Char.ofNat (48 + d) := by
  interval_cases d <;> rfl

/-- The digit producer agrees with the core library's base-10 digit producer. -/
theorem decimalDigits_eq_toDigitsCore (fuel n : Nat) (acc : List Char) :
    decimalDigits fuel n acc = Nat.toDigitsCore 10 fuel n acc := by
  induction fuel generalizing n acc with
  | zero => rfl
  | succ k ih =>
    have hd : Nat.digitChar (n % 10) = Char.ofNat (48 + n % 10) :=
      digitChar_eq_ofNat (n % 10) (Nat.mod_lt n (by decide))
    simp only [decimalDigits, Nat.toDigitsCore, hd, ih]

/-- On a non-negative integer, `decimal` is the core library's rendering of
the natural number. -/
theorem decimal_ofNat (m : Nat) : decimal (Int.ofNat m) = Nat.repr m := by
  simp only [decimal, Nat.repr, Nat.toDigits, List.asString, decimalDigits_eq_toDigitsCore]

/-- The build timestamp parses, and these are its fields. -/
theorem parseTimestamp_header :
    parseTimestamp VL_SDK_VERSION_TIMESTAMP_STRING = some ⟨2024, 7, 22, 9, 18, 52⟩ := by
  decide

/-- A timestamp with a wrong separator is rejected. -/
theorem parseTimestamp_rejects_separator :
    parseTimestamp "2024-07-22T09:18:52" = none := by
  decide

/-- A timestamp with a non-digit in a field is rejected. -/
theorem parseTimestamp_rejects_nondigit :
    parseTimestamp "2024-0x-22 09:18:52" = none := by
  decide

/-- February has 29 days in 2024 and 28 in 1900. -/
theorem daysInMonth_february : daysInMonth 2024 2 = 29 ∧ daysInMonth 1900 2 = 28 := by
  decide

/-! ## The claims -/

/-- C1: the composed version string is in sync with its components.
`VL_SDK_VERSION_STRING` is the decimal rendering of `VL_SDK_VERSION_MAJOR`,
then ".", then the decimal rendering of `VL_SDK_VERSION_MINOR`, then ".", then
the decimal rendering of `VL_SDK_VERSION_REVISION`, followed by
`VL_SDK_VERSION_POSTFIX`, with nothing before, between or after these parts;
this is the spec's composition `"{major}.{minor}.{revision}{postfix}"`. -/
theorem version_string_in_sync :
    VL_SDK_VERSION_STRING =
        decimal VL_SDK_VERSION_MAJOR ++ "." ++ decimal VL_SDK_VERSION_MINOR ++ "." ++
          decimal VL_SDK_VERSION_REVISION ++ VL_SDK_VERSION_POSTFIX ∧
      VL_SDK_VERSION_STRING =
        composedVersionString VL_SDK_VERSION_MAJOR VL_SDK_VERSION_MINOR
          VL_SDK_VERSION_REVISION VL_SDK_VERSION_POSTFIX := by
  decide

/-- C2: the three numeric version accessors return the release's components.
The major version is 3, the minor version is 2 and the revision is 2, these
are the values of `VL_SDK_VERSION_MAJOR`, `VL_SDK_VERSION_MINOR` and
`VL_SDK_VERSION_REVISION`, and each is a non-negative integer. -/
theorem version_components :
    (VL_SDK_VERSION_MAJOR = 3 ∧ VL_SDK_VERSION_MINOR = 2 ∧ VL_SDK_VERSION_REVISION = 2) ∧
      (getVersionMajor = 3 ∧ getVersionMinor = 2 ∧ getVersionRevision = 2) ∧
      (getVersionMajor = VL_SDK_VERSION_MAJOR ∧ getVersionMinor = VL_SDK_VERSION_MINOR ∧
        getVersionRevision = VL_SDK_VERSION_REVISION) ∧
      (0 ≤ getVersionMajor ∧ 0 ≤ getVersionMinor ∧ 0 ≤ getVersionRevision) := by
  decide

/-- C3: the version string accessor returns exactly the five-character text
"3.2.2", the value of `VL_SDK_VERSION_STRING`, and the pre-release postfix
`VL_SDK_VERSION_POSTFIX` is the empty string, so no postfix is appended: the
version string ends with the revision. -/
theorem version_string_literal :
    getVersionString = "3.2.2" ∧
      getVersionString = VL_SDK_VERSION_STRING ∧
      VL_SDK_VERSION_STRING = "3.2.2" ∧
      VL_SDK_VERSION_STRING.length = 5 ∧
      VL_SDK_VERSION_POSTFIX = "" ∧
      VL_SDK_VERSION_POSTFIX.length = 0 ∧
      VL_SDK_VERSION_STRING =
        decimal VL_SDK_VERSION_MAJOR ++ "." ++ decimal VL_SDK_VERSION_MINOR ++ "." ++
          decimal VL_SDK_VERSION_REVISION := by
  decide

/-- C4: the version hash string `VL_SDK_VERSION_HASH_STRING` equals
"9a3b48bea7b98ea5ce9c691022b1dabbed496c77", is exactly 40 characters long, and
every one of its characters is a lowercase hexadecimal digit, one of 0-9 or
a-f. -/
theorem version_hash_format :
    VL_SDK_VERSION_HASH_STRING = "9a3b48bea7b98ea5ce9c691022b1dabbed496c77" ∧
      VL_SDK_VERSION_HASH_STRING.length = 40 ∧
      ∀ c ∈ VL_SDK_VERSION_HASH_STRING.data, isLowerHexDigit c := by
  decide

/-- C5: the build timestamp string `VL_SDK_VERSION_TIMESTAMP_STRING` equals
"2024-07-22 09:18:52" and has the fixed format YYYY-MM-DD HH:MM:SS.  It is
exactly 19 characters long, with a hyphen at positions 4 and 7, a single space
at position 10, a colon at positions 13 and 16 (0-based), and a decimal digit
at every other position. -/
theorem version_timestamp_format :
    VL_SDK_VERSION_TIMESTAMP_STRING = "2024-07-22 09:18:52" ∧
      VL_SDK_VERSION_TIMESTAMP_STRING.length = 19 ∧
      VL_SDK_VERSION_TIMESTAMP_STRING.data[4]? = some '-' ∧
      VL_SDK_VERSION_TIMESTAMP_STRING.data[7]? = some '-' ∧
      VL_SDK_VERSION_TIMESTAMP_STRING.data[10]? = some ' ' ∧
      VL_SDK_VERSION_TIMESTAMP_STRING.data[13]? = some ':' ∧
      VL_SDK_VERSION_TIMESTAMP_STRING.data[16]? = some ':' ∧
      ∀ i : Fin 19, i.val ≠ 4 → i.val ≠ 7 → i.val ≠ 10 → i.val ≠ 13 → i.val ≠ 16 →
        ∃ c, VL_SDK_VERSION_TIMESTAMP_STRING.data[i.val]? = some c ∧ isDecimalDigit c := by
  refine ⟨by decide, by decide, by decide, by decide, by decide, by decide, by decide, ?_⟩
  intro i
  fin_cases i <;> decide

/-- C6: the numeric fields parsed out of `VL_SDK_VERSION_TIMESTAMP_STRING`
denote a real calendar date and a real 24-hour time of day.  The string parses
in the layout YYYY-MM-DD HH:MM:SS; the month is between 1 and 12, the day is
between 1 and the number of days of that month in that year, the hour is below
24, and the minute and the second are each below 60. -/
theorem version_timestamp_is_real_date_time :
    ∃ f : TimestampFields,
      parseTimestamp VL_SDK_VERSION_TIMESTAMP_STRING = some f ∧
        (1 ≤ f.month ∧ f.month ≤ 12) ∧
        (1 ≤ f.day ∧ f.day ≤ daysInMonth f.year f.month) ∧
        f.hour < 24 ∧ f.minute < 60 ∧ f.second < 60 ∧
        f.isValid := by
  refine ⟨⟨2024, 7, 22, 9, 18, 52⟩, parseTimestamp_header, ?_⟩
  decide
